import Mathlib

/-! # Verification of the SQL Intelligent Tutoring System query-analysis engine

A shallow embedding of the analysis pipeline of `sql_tutor_system.py`
(classes `OntologyManager` and `SQLTutorEngine`), together with proofs about
the behaviour claimed by the specification.

Modelling conventions:

* Query text is modelled as `List Char`.  Python `str.upper` / `str.lower`
  are modelled on the ASCII letters (`upChar` / `lowChar`); every string the
  analyzer manipulates is ASCII.
* `sqlparse.parse(q)[0]` keeps the statement text unchanged, so `str(parsed)`
  is modelled by the query text itself.  Whether the defensive
  `except`-branch around the parse call fires is an external event and is an
  explicit input (`parseExc`) of the analysis.
* The sandbox executor (`sqlite3` cursor) is an external collaborator and is
  modelled as an oracle `List Char → ExecOutcome`.
* An uncaught Python exception (the `IndexError` raised by `[0]` applied to
  an empty token list in `_extract_table_names` / `_extract_group_by_columns`)
  and divergence of the prerequisite-chain walk are modelled by `Option`:
  a function returns `none` exactly when the Python call never returns.
* Python `dict` / `set` iteration order is modelled as insertion order
  (Python guarantees it for `dict`; for the two `set`s used by the engine
  only membership, emptiness and the sort key are ever observed).
-/

namespace SQLTutor

/-! ## Python string primitives (ASCII model) -/

/-- The lower-case/upper-case pairs of the ASCII letters. -/
def casePairs : List (Char × Char) :=
  [('a', 'A'), ('b', 'B'), ('c', 'C'), ('d', 'D'), ('e', 'E'), ('f', 'F'),
   ('g', 'G'), ('h', 'H'), ('i', 'I'), ('j', 'J'), ('k', 'K'), ('l', 'L'),
   ('m', 'M'), ('n', 'N'), ('o', 'O'), ('p', 'P'), ('q', 'Q'), ('r', 'R'),
   ('s', 'S'), ('t', 'T'), ('u', 'U'), ('v', 'V'), ('w', 'W'), ('x', 'X'),
   ('y', 'Y'), ('z', 'Z')]

/-- ASCII model of Python `str.upper` on a single character. -/
def upChar (c : Char) : Char :=
  ((casePairs.find? fun p => p.1 == c).map (·.2)).getD c

/-- ASCII model of Python `str.lower` on a single character. -/
def lowChar (c : Char) : Char :=
  ((casePairs.find? fun p => p.2 == c).map (·.1)).getD c

/-- Python `str.upper`. -/
def pyUpper (l : List Char) : List Char := l.map upChar

/-- Python `str.lower`. -/
def pyLower (l : List Char) : List Char := l.map lowChar

/-- The characters stripped by Python `str.strip()` (and splitting `str.split()`). -/
def isPySpace (c : Char) : Bool :=
  c = ' ' || c = '\t' || c = '\n' || c = '\x0b' || c = '\x0c' || c = '\r'

/-- Python `str.strip()`. -/
def pyStrip (l : List Char) : List Char :=
  ((l.dropWhile isPySpace).reverse.dropWhile isPySpace).reverse

/-- Python substring containment `pat in l`. -/
def hasSub (l pat : List Char) : Bool :=
  match l with
  | [] => pat.isEmpty
  | _ :: rest => pat.isPrefixOf l || hasSub rest pat

/-- Python `l.find(pat)`: index of the leftmost occurrence, if any
(Python returns `-1` when absent, modelled by `none`). -/
def findSub (l pat : List Char) : Option Nat :=
  if pat.isPrefixOf l then some 0
  else
    match l with
    | [] => none
    | _ :: rest => (findSub rest pat).map (· + 1)

/-- Python `l.find(pat, start)`. -/
def findSubFrom (l pat : List Char) (start : Nat) : Option Nat :=
  (findSub (l.drop start) pat).map (· + start)

/-- Python slice `l[a:b]` (for `0 ≤ a ≤ b`; an out-of-range `b` is capped). -/
def sliceList (l : List Char) (a b : Nat) : List Char :=
  (l.take b).drop a

/-- Python `l.split(',')` (empty parts are kept). -/
def splitComma : List Char → List (List Char)
  | [] => [[]]
  | c :: r =>
    if c = ',' then [] :: splitComma r
    else
      match splitComma r with
      | [] => [[c]]
      | p :: ps => (c :: p) :: ps

/-- Worker for Python `l.split()`: `acc` is the current word, reversed. -/
def wsSplitGo : List Char → List Char → List (List Char)
  | [], acc => if acc.isEmpty then [] else [acc.reverse]
  | c :: r, acc =>
    if isPySpace c then
      if acc.isEmpty then wsSplitGo r [] else acc.reverse :: wsSplitGo r []
    else wsSplitGo r (c :: acc)

/-- Python `l.split()` (split on whitespace runs, no empty parts). -/
def wsSplit (l : List Char) : List (List Char) := wsSplitGo l []

/-- Python `part.strip().split()[0]`; `none` models the `IndexError`
raised when the part holds no token. -/
def firstToken (l : List Char) : Option (List Char) :=
  (wsSplit (pyStrip l)).head?

/-- Character class `[a-zA-Z0-9_]` of the identifier regexes. -/
def isWordChar (c : Char) : Bool :=
  ('a' ≤ c && c ≤ 'z') || ('A' ≤ c && c ≤ 'Z') || ('0' ≤ c && c ≤ '9') || c = '_'

/-- Character class `[a-zA-Z_]` opening an identifier. -/
def identStart (c : Char) : Bool :=
  ('a' ≤ c && c ≤ 'z') || ('A' ≤ c && c ≤ 'Z') || c = '_'

/-- Maximal runs of word characters; `acc` is the current run, reversed. -/
def wordRunsGo : List Char → List Char → List (List Char)
  | [], acc => if acc.isEmpty then [] else [acc.reverse]
  | c :: r, acc =>
    if isWordChar c then wordRunsGo r (c :: acc)
    else if acc.isEmpty then wordRunsGo r [] else acc.reverse :: wordRunsGo r []

/-- Python `re.findall(r'\b[a-zA-Z_][a-zA-Z0-9_]*\b', l)`: the maximal
word-character runs whose first character opens an identifier. -/
def regexWords (l : List Char) : List (List Char) :=
  (wordRunsGo l []).filter fun w =>
    match w with
    | c :: _ => identStart c
    | [] => false

/-- Python `str.isdigit()` (ASCII digits). -/
def allDigits (w : List Char) : Bool :=
  !w.isEmpty && w.all fun c => '0' ≤ c && c ≤ '9'

/-- Concatenate with a separator, Python `sep.join(parts)`. -/
def joinWith (sep : List Char) : List (List Char) → List Char
  | [] => []
  | [p] => p
  | p :: ps => p ++ sep ++ joinWith sep ps

/-- Python `l.replace(a, b)` for single characters. -/
def replaceChar (a b : Char) (l : List Char) : List Char :=
  l.map fun c => if c = a then b else c

/-- Worker for Python `str.title()`: uppercase a letter that follows a
non-letter, lowercase the other letters. -/
def pyTitleGo : Bool → List Char → List Char
  | _, [] => []
  | prevAlpha, c :: r =>
    if ('a' ≤ c && c ≤ 'z') || ('A' ≤ c && c ≤ 'Z') then
      (if prevAlpha then lowChar c else upChar c) :: pyTitleGo true r
    else c :: pyTitleGo false r

/-- Python `str.title()` (ASCII model). -/
def pyTitle (l : List Char) : List Char := pyTitleGo false l

/-! ## Engine constants (`SQLTutorEngine.__init__`) -/

/-- `self.aggregate_functions`. -/
def aggFuncs : List (List Char) :=
  ["COUNT".data, "SUM".data, "AVG".data, "MIN".data, "MAX".data]

/-- `self.sql_keywords`. -/
def sqlKeywords : List (List Char) :=
  ["SELECT".data, "FROM".data, "WHERE".data, "GROUP BY".data, "HAVING".data,
   "ORDER BY".data, "JOIN".data, "INNER".data, "LEFT".data, "RIGHT".data,
   "ON".data, "AND".data, "OR".data, "NOT".data, "AS".data]

/-- The extended exclusion list of `_extract_columns_from_select`. -/
def excludedKeywords : List (List Char) :=
  sqlKeywords ++
  ["FROM".data, "WHERE".data, "GROUP".data, "HAVING".data, "ORDER".data,
   "BY".data, "JOIN".data, "ON".data, "INNER".data, "LEFT".data,
   "RIGHT".data, "OUTER".data, "AS".data]

/-- The destructive keywords of the execution gate in `_try_execute_query`. -/
def destructiveKeywords : List (List Char) :=
  ["DROP".data, "DELETE".data, "UPDATE".data, "INSERT".data, "ALTER".data,
   "CREATE".data, "TRUNCATE".data]

/-- The six canonical clause keywords of `_check_clause_order`. -/
def canonicalClauses : List (List Char) :=
  ["SELECT".data, "FROM".data, "WHERE".data, "GROUP BY".data, "HAVING".data,
   "ORDER BY".data]

/-! ## Regex fragments for aggregate calls -/

/-- The list suffix that follows the first `)` of `l`, if any
(the closing parenthesis of `[^)]*\)`). -/
def afterRParen : List Char → Option (List Char)
  | [] => none
  | c :: r => if c = ')' then some r else afterRParen r

/-- The characters of `l` before its first `)`, if a `)` exists
(the span matched by `[^)]*`). -/
def beforeRParen : List Char → Option (List Char)
  | [] => none
  | c :: r => if c = ')' then some [] else (beforeRParen r).map (c :: ·)

/-- When `l` begins with a match of `f\s*\([^)]*\)`, the suffix after the
match; `none` when there is no match at this position. -/
def afterAggCall (f l : List Char) : Option (List Char) :=
  if f.isPrefixOf l then
    match (l.drop f.length).dropWhile isPySpace with
    | '(' :: r => afterRParen r
    | _ => none
  else none

/-- One `re.sub(rf"{func}\s*\(\s*[^)]*\s*\)", '', l)` pass: remove every
non-overlapping match, scanning left to right.  `fuel` bounds the scan;
`l.length + 1` always suffices since every step consumes a character. -/
def removeCallsF (f : List Char) : Nat → List Char → List Char
  | 0, l => l
  | fuel + 1, l =>
    match l with
    | [] => []
    | c :: r =>
      match afterAggCall f l with
      | some rest => removeCallsF f fuel rest
      | none => c :: removeCallsF f fuel r

/-- The aggregate-call removal loop of `_extract_columns_from_select`
(one `re.sub` per aggregate function, in order). -/
def removeAggCalls (l : List Char) : List Char :=
  aggFuncs.foldl (fun acc f => removeCallsF f (acc.length + 1) acc) l

/-- When `l` begins with a match of `\bAS\s+[a-zA-Z_][a-zA-Z0-9_]*`
(the word boundary having been checked by the caller), the suffix after
the match. -/
def afterAsAlias (l : List Char) : Option (List Char) :=
  if "AS".data.isPrefixOf l then
    let r := l.drop 2
    if (r.takeWhile isPySpace).isEmpty then none
    else
      match r.dropWhile isPySpace with
      | c :: r2 => if identStart c then some (r2.dropWhile isWordChar) else none
      | [] => none
  else none

/-- `re.sub(r'\bAS\s+[a-zA-Z_][a-zA-Z0-9_]*', '', l)`: the Boolean records
whether the previous character of the original string was a word character
(the `\b` context). -/
def removeAsAliasF : Nat → Bool → List Char → List Char
  | 0, _, l => l
  | fuel + 1, prevWord, l =>
    match l with
    | [] => []
    | c :: r =>
      if !prevWord then
        match afterAsAlias l with
        | some rest => removeAsAliasF fuel true rest
        | none => c :: removeAsAliasF fuel (isWordChar c) r
      else c :: removeAsAliasF fuel (isWordChar c) r

/-- The alias-removal `re.sub` of `_extract_columns_from_select`. -/
def removeAsAlias (l : List Char) : List Char :=
  removeAsAliasF (l.length + 1) false l

/-- Whether `re.search(rf"{f}\s*\([^)]*{col}[^)]*\)", l)` matches at the
head of `l`: `f`, optional whitespace, `(`, then `col` occurs before the
first `)` (the escaped column holds no `)`, so the `[^)]*` spans keep the
whole argument span free of `)`). -/
def aggSearchHere (f col l : List Char) : Bool :=
  if f.isPrefixOf l then
    match (l.drop f.length).dropWhile isPySpace with
    | '(' :: r =>
      match beforeRParen r with
      | some inner => hasSub inner col
      | none => false
    | _ => false
  else false

/-- `re.search(rf"{f}\s*\([^)]*{col}[^)]*\)", l)` as used by
`_needs_group_by` (the strings compared are already upper-case, so the
`IGNORECASE` flag is inert). -/
def aggSearch (f col : List Char) : List Char → Bool
  | [] => false
  | l@(_ :: r) => aggSearchHere f col l || aggSearch f col r

/-! ## Clause and column extraction -/

/-- `_extract_select_clause`: the upper-cased text from `SELECT` up to
(excluding) the first following `FROM`. -/
def extractSelectClause (q : List Char) : List Char :=
  let s := pyUpper q
  match findSub s "SELECT".data with
  | none => []
  | some i =>
    match findSubFrom s "FROM".data i with
    | none => s.drop i
    | some j => sliceList s i j

/-- `_extract_columns_from_select`: word identifiers of the SELECT clause
after removing aggregate calls and `AS` aliases, minus keywords and
numbers. -/
def extractColumnsFromSelect (sel : List Char) : List (List Char) :=
  let temp := removeAsAlias (removeAggCalls (pyUpper sel))
  (regexWords temp).filter fun w =>
    !(excludedKeywords.contains (pyUpper w)) && !allDigits w

/-- `_extract_all_columns_from_select`: every word identifier of the SELECT
clause (aggregate arguments included), minus keywords and numbers. -/
def extractAllColumnsFromSelect (sel : List Char) : List (List Char) :=
  (regexWords sel).filter fun c =>
    !((sqlKeywords ++ ["AS".data]).contains (pyUpper c)) && !allDigits c

/-- The clause-end computation shared by several extractors: the least
index of any of `kws` at or after `start`, defaulting to the length. -/
def clauseEnd (s : List Char) (start : Nat) (kws : List (List Char)) : Nat :=
  kws.foldl
    (fun e k =>
      match findSubFrom s k start with
      | some p => min e p
      | none => e)
    s.length

/-- `_extract_group_by_columns` body: first token of each comma part, kept
unless it is an SQL keyword; `none` models the `IndexError` on an empty
part. -/
def gbColsFromParts : List (List Char) → Option (List (List Char))
  | [] => some []
  | p :: ps =>
    match firstToken p with
    | none => none
    | some col =>
      match gbColsFromParts ps with
      | none => none
      | some rest =>
        some (if !col.isEmpty && !(sqlKeywords.contains col) then col :: rest else rest)

/-- `_extract_group_by_columns`. -/
def extractGroupByColumns (q : List Char) : Option (List (List Char)) :=
  let s := pyUpper q
  match findSub s "GROUP BY".data with
  | none => some []
  | some gs =>
    let ge := clauseEnd s gs ["HAVING".data, "ORDER BY".data, "LIMIT".data]
    gbColsFromParts (splitComma (pyStrip (sliceList s (gs + 8) ge)))

/-- The per-JOIN scan of `_extract_table_names`; `fuel` bounds the `while`
loop (`s.length + 1` suffices: the search position strictly increases). -/
def joinTablesF (s : List Char) : Nat → Nat → Option (List (List Char))
  | 0, _ => some []
  | fuel + 1, pos =>
    match findSubFrom s "JOIN".data pos with
    | none => some []
    | some jp =>
      match findSubFrom s "ON".data jp with
      | none => some []
      | some je =>
        match firstToken (sliceList s (jp + 4) je) with
        | none => none
        | some t => (joinTablesF s fuel (jp + 1)).map (t :: ·)

/-- `_extract_table_names`: FROM-clause tables (comma-separated, first token
of each part) then JOIN tables, with join-type keywords filtered out;
`none` models the `IndexError` on an empty part. -/
def extractTableNames (q : List Char) : Option (List (List Char)) :=
  let s := pyUpper q
  let fromTables :=
    match findSub s "FROM".data with
    | none => some []
    | some fs =>
      let fe := clauseEnd s fs
        ["WHERE".data, "GROUP BY".data, "HAVING".data, "ORDER BY".data, "JOIN".data]
      (splitComma (pyStrip (sliceList s (fs + 4) fe))).mapM firstToken
  match fromTables with
  | none => none
  | some ft =>
    match joinTablesF s (s.length + 1) 0 with
    | none => none
    | some jt =>
      some ((ft ++ jt).filter fun t =>
        !t.isEmpty &&
        !(["INNER".data, "LEFT".data, "RIGHT".data, "FULL".data].contains (pyUpper t)))

/-! ## Data model

Python passes findings, suggestions and reports around as dicts; the
records below carry the union of the keys ever written, with `[]`
defaults for keys a given producer omits (every consumer reads the
optional keys through `.get(..., default)`).
-/

/-- A diagnostic finding (`feedback['errors']` entry). -/
structure Finding where
  message : List Char
  ftype : List Char
  severity : List Char
  explanation : List Char := []
  source : List Char := []
  availableTables : List (List Char) := []
deriving DecidableEq

/-- An advisory suggestion (`feedback['suggestions']` entry). -/
structure Suggestion where
  message : List Char
  stype : List Char
  severity : List Char
  source : List Char := []
deriving DecidableEq

/-- A successful execution (`feedback['execution_result']`). -/
structure ExecResult where
  columns : List (List Char)
  data : List (List (List Char))
  rowCount : Nat
deriving DecidableEq

/-- The sandbox executor's answer for a query: column names and all result
rows, or a `sqlite3.Error` message. -/
inductive ExecOutcome where
  | ok (columns : List (List Char)) (results : List (List (List Char)))
  | err (msg : List Char)

/-- The value of `_try_execute_query`: an error dict or a result dict. -/
inductive ExecFeedback where
  | errF (f : Finding)
  | okR (r : ExecResult)

/-- The analysis report (the `feedback` dict of `analyze_query`). -/
structure Report where
  errors : List Finding
  warnings : List Finding
  suggestions : List Suggestion
  learningPath : List (List Char)
  correctness : List Char
  executionResult : Option ExecResult
deriving DecidableEq

/-- An `OntologyManager.error_patterns` entry (`_extract_error_patterns`
always fills all four fields, defaulting type/severity/explanation). -/
structure ErrPattern where
  message : List Char
  etype : List Char
  severity : List Char
  explanation : List Char
deriving DecidableEq

/-- An `OntologyManager.feedback_messages` entry. -/
structure SuggTemplate where
  message : List Char
  stype : List Char
deriving DecidableEq

/-- An `OntologyManager.sql_concepts` entry. -/
structure ConceptInfo where
  label : List Char
  difficulty : Int
  prerequisite : Option (List Char)
deriving DecidableEq

/-- The read-only knowledge extracted by `OntologyManager`: schema tables
(lower-case name to column keys; `_build_schema_from_ontology` keeps the
same keys), error patterns, suggestion templates and concepts. -/
structure KnowledgeBase where
  schemaTables : List (List Char × List (List Char))
  errorPatterns : List (List Char × ErrPattern)
  feedbackMessages : List (List Char × SuggTemplate)
  sqlConcepts : List (List Char × ConceptInfo)

/-! ## The individual checks -/

/-- `check_missing_from`. -/
def checkMissingFrom (q : List Char) : Bool :=
  hasSub (pyUpper q) "SELECT".data && !hasSub (pyUpper q) "FROM".data

/-- `_has_aggregate_in_where` (behind `check_aggregate_in_where`). -/
def hasAggregateInWhere (q : List Char) : Bool :=
  let s := pyUpper q
  match findSub s "WHERE".data with
  | none => false
  | some ws =>
    let wc := sliceList s ws
      (clauseEnd s ws ["GROUP BY".data, "HAVING".data, "ORDER BY".data, "LIMIT".data])
    aggFuncs.any fun f => hasSub wc (f ++ "(".data)

/-- `check_having_without_group`. -/
def checkHavingWithoutGroup (q : List Char) : Bool :=
  hasSub (pyUpper q) "HAVING".data && !hasSub (pyUpper q) "GROUP BY".data

/-- The SELECT-clause columns `_needs_group_by` classifies as outside every
aggregate call (its inner `re.search` filter loop). -/
def nonAggregateSelectColumns (q : List Char) : List (List Char) :=
  (extractColumnsFromSelect (extractSelectClause q)).filter fun col =>
    !(aggFuncs.any fun f => aggSearch f col (extractSelectClause q))

/-- `_needs_group_by`, the body of the effective `check_missing_group_by`
(the later of the two method definitions wins in Python). -/
def needsGroupBy (q : List Char) : Bool :=
  if hasSub (pyUpper q) "GROUP BY".data then false
  else if (extractSelectClause q).isEmpty then false
  else if aggFuncs.any (fun f => hasSub (extractSelectClause q) f) then
    !(nonAggregateSelectColumns q).isEmpty
  else false

/-- The `f"{func}(" in sel or f"{func} (" in sel` aggregate test shared by
`check_missing_aggregate_with_group_by` and the GROUP-BY suggestion branch. -/
def selectAggCallUpper (sel : List Char) : Bool :=
  aggFuncs.any fun f => hasSub sel (f ++ "(".data) || hasSub sel (f ++ " (".data)

/-- `check_missing_aggregate_with_group_by`. -/
def checkMissingAggregateWithGroupBy (q : List Char) : Bool :=
  if hasSub (pyUpper q) "GROUP BY".data then
    !selectAggCallUpper (pyUpper (extractSelectClause q))
  else false

/-- `check_group_by_column_not_in_select`; `none` models the `IndexError`
of the GROUP-BY column extraction. -/
def checkGroupByColumnNotInSelect (q : List Char) : Option Bool :=
  if hasSub (pyUpper q) "GROUP BY".data then
    match extractGroupByColumns q with
    | none => none
    | some gcols =>
      let scols := extractAllColumnsFromSelect (extractSelectClause q)
      some (gcols.any fun g => !((scols.map pyUpper).contains (pyUpper g)))
  else some false

/-! ### Ambiguous-column detection -/

/-- Insert a value at the end unless already present (insertion-ordered
model of Python `set.add` / `list(set(..))`). -/
def addUnique (acc : List (List Char)) (x : List Char) : List (List Char) :=
  if acc.contains x then acc else acc ++ [x]

/-- Deduplicate keeping first occurrences. -/
def dedupKeepFirst (l : List (List Char)) : List (List Char) :=
  l.foldl addUnique []

/-- Append `t` to the occurrence list of `col` (insertion-ordered dict). -/
def addOcc : List (List Char × List (List Char)) → List Char → List Char →
    List (List Char × List (List Char))
  | [], col, t => [(col, [t])]
  | (c, ts) :: rest, col, t =>
    if c == col then (c, ts ++ [t]) :: rest else (c, ts) :: addOcc rest col t

/-- The `column_occurrences` dict of `_find_ambiguous_columns`. -/
def columnOccurrences (allCols : List (List Char × List (List Char))) :
    List (List Char × List (List Char)) :=
  allCols.foldl (fun occ tc => tc.2.foldl (fun o col => addOcc o col tc.1) occ) []

/-- Case-insensitive prefix match of `col` against `l` (the `IGNORECASE`
literal of the `\b col \b` search). -/
def ciPrefixMatch (col l : List Char) : Bool :=
  (l.take col.length).map lowChar == pyLower col

/-- Word boundary after a match of length `col.length` at the head of `l`. -/
def boundaryAfter (col l : List Char) : Bool :=
  match l.drop col.length with
  | [] => true
  | c :: _ => !isWordChar c

/-- `re.findall(r'\b col \b', q, re.IGNORECASE)`: the matched texts, in
order, non-overlapping.  The Boolean carries whether the previous character
was a word character; the scan needs at most `q.length + 1` fuel.  Column
names are identifiers (word characters), for which `\b` before the match
means exactly "previous character is not a word character". -/
def wbMatchesF (col : List Char) : Nat → Bool → List Char → List (List Char)
  | 0, _, _ => []
  | fuel + 1, prevWord, l =>
    match l with
    | [] => []
    | c :: r =>
      if !prevWord && !col.isEmpty && ciPrefixMatch col l && boundaryAfter col l then
        l.take col.length :: wbMatchesF col fuel true (l.drop col.length)
      else wbMatchesF col fuel (isWordChar c) r

/-- `_find_ambiguous_columns`: columns shared by two or more referenced
tables that appear in the text without a table name in the 20 characters
before their first (lower-cased) occurrence. -/
def findAmbiguousColumns (schema : List (List Char × List (List Char)))
    (q : List Char) : Option (List (List Char)) :=
  match extractTableNames q with
  | none => none
  | some tables =>
    if tables.length < 2 then some []
    else
      let allCols := (dedupKeepFirst tables).filterMap fun t =>
        (List.lookup (pyLower t) schema).map fun cols => (t, cols)
      let ambiguous := ((columnOccurrences allCols).filter fun p => 1 < p.2.length).map (·.1)
      let used := ambiguous.filter fun col =>
        (wbMatchesF col (q.length + 1) false q).any fun m =>
          match findSub (pyLower q) (pyLower m) with
          | some p =>
            0 < p && !(tables.any fun t => hasSub (pyStrip (sliceList q (p - 20) p)) (pyLower t))
          | none => false
      some (dedupKeepFirst used)

/-- `check_ambiguous_columns`. -/
def checkAmbiguousColumns (schema : List (List Char × List (List Char)))
    (q : List Char) : Option Bool :=
  (findAmbiguousColumns schema q).map fun l => !l.isEmpty

/-! ### Clause order -/

/-- The `clauses` list of `_check_clause_order`: note that it is built by
iterating the canonical keyword list, not by position in the query. -/
def clausesPresent (q : List Char) : List (List Char) :=
  canonicalClauses.filter fun c => hasSub (pyUpper q) c

/-- The `filtered_expected` list of `_check_clause_order`. -/
def expectedClauseOrder (q : List Char) : List (List Char) :=
  canonicalClauses.filter fun c => (clausesPresent q).contains c

/-- `_check_clause_order`: a SyntaxError/Medium finding carrying the
observed clause list when it differs from the canonical sublist. -/
def checkClauseOrder (q : List Char) : Option Finding :=
  if clausesPresent q = expectedClauseOrder q then none
  else
    some
      { message :=
          ("SQL clauses should follow this order: SELECT -> FROM -> WHERE -> " ++
            "GROUP BY -> HAVING -> ORDER BY. Found: ").data ++
          joinWith " -> ".data (clausesPresent q)
        ftype := "SYNTAX_ERROR".data
        severity := "MEDIUM".data }

/-! ### The spec's wording of an aggregate call (for claim C1) -/

/-- Whether `l` begins with an aggregate call: an aggregate function name
followed by optional whitespace and an opening parenthesis. -/
def aggCallHere (l : List Char) : Bool :=
  aggFuncs.any fun f =>
    f.isPrefixOf l &&
    match (l.drop f.length).dropWhile isPySpace with
    | '(' :: _ => true
    | _ => false

/-- Whether `l` contains an aggregate call anywhere. -/
def containsAggCall : List Char → Bool
  | [] => false
  | l@(_ :: r) => aggCallHere l || containsAggCall r

/-- Modelled from the spec (not from the source): the spec's trigger for
`missing_group_by` requires "the SELECT clause contains at least one
aggregate call" - an aggregate function name applied to a parenthesized
argument.  Declared for comparison with the code's substring test. -/
def specAggregateCallInSelect (q : List Char) : Bool :=
  containsAggCall (extractSelectClause q)

/-! ## Pattern merge and the pipeline stages -/

/-- `_initialize_error_patterns` for one key: the ontology entry wins in
full when present (ontology entries always carry all four fields),
otherwise the fallback message/explanation with the hard-coded type and
severity. -/
def mergedPattern (kb : KnowledgeBase) (key defType defSev : List Char) : ErrPattern :=
  match List.lookup key kb.errorPatterns with
  | some e => e
  | none =>
    { message := "Error detected: ".data ++ pyTitle (replaceChar '_' ' ' key)
      etype := defType
      severity := defSev
      explanation := "Refer to SQL documentation for proper usage.".data }

/-- The finding `_check_semantics` (and the missing-select branch of
`_check_syntax`) appends for a firing pattern. -/
def semFinding (kb : KnowledgeBase) (key defType defSev : List Char) : Finding :=
  let p := mergedPattern kb key defType defSev
  { message := p.message, ftype := p.etype, severity := p.severity,
    explanation := p.explanation, source := "ontology".data }

/-- `_check_syntax`: the missing-select check and the clause-order check
(whose finding the ontology may re-word). -/
def checkSyntax (kb : KnowledgeBase) (q : List Char) : List Finding :=
  let first :=
    if "SELECT".data.isPrefixOf (pyStrip (pyUpper q)) then []
    else [semFinding kb "missing_select".data "SYNTAX_ERROR".data "HIGH".data]
  match checkClauseOrder q with
  | none => first
  | some f =>
    first ++
      [match List.lookup "clause_order".data kb.errorPatterns with
       | some e =>
         { f with message := e.message, explanation := e.explanation,
                  source := "ontology".data }
       | none => f]

/-- `_check_semantics`: the seven function-backed patterns, in dict order;
`none` models the uncaught `IndexError` of the ambiguous-column or
GROUP-BY-column extraction. -/
def checkSemantics (kb : KnowledgeBase) (q : List Char) : Option (List Finding) :=
  let f1 := if checkMissingFrom q then
    [semFinding kb "missing_from".data "SYNTAX_ERROR".data "HIGH".data] else []
  let f2 := if hasAggregateInWhere q then
    [semFinding kb "aggregate_in_where".data "SEMANTIC_ERROR".data "HIGH".data] else []
  let f3 := if needsGroupBy q then
    [semFinding kb "missing_group_by".data "SEMANTIC_ERROR".data "HIGH".data] else []
  let f4 := if checkHavingWithoutGroup q then
    [semFinding kb "having_without_group".data "SEMANTIC_ERROR".data "MEDIUM".data] else []
  match checkAmbiguousColumns kb.schemaTables q with
  | none => none
  | some amb =>
    let f5 := if amb then
      [semFinding kb "ambiguous_column".data "SEMANTIC_ERROR".data "MEDIUM".data] else []
    match checkGroupByColumnNotInSelect q with
    | none => none
    | some gbs =>
      let f6 := if gbs then
        [semFinding kb "group_by_column_not_in_select".data "SEMANTIC_ERROR".data "HIGH".data] else []
      let f7 := if checkMissingAggregateWithGroupBy q then
        [semFinding kb "missing_aggregate_with_group_by".data "SEMANTIC_ERROR".data "HIGH".data] else []
      some (f1 ++ f2 ++ f3 ++ f4 ++ f5 ++ f6 ++ f7)

/-- The finding `_check_schema_constraints` emits for an unknown table,
with the Did-you-mean suggestions (substring containment either way). -/
def schemaErrorFor (schema : List (List Char × List (List Char))) (t : List Char) : Finding :=
  let sugg := (schema.map (·.1)).filter fun a => hasSub a (pyLower t) || hasSub (pyLower t) a
  { message :=
      "Table '".data ++ t ++ "' does not exist in the database schema.".data ++
      (if sugg.isEmpty then []
       else " Did you mean: ".data ++ joinWith ", ".data sugg ++ "?".data)
    ftype := "SCHEMA_ERROR".data
    severity := "HIGH".data
    availableTables := schema.map (·.1) }

/-- `_check_schema_constraints`. -/
def checkSchemaConstraints (kb : KnowledgeBase) (q : List Char) : Option (List Finding) :=
  match extractTableNames q with
  | none => none
  | some tables =>
    some (tables.filterMap fun t =>
      if (List.lookup (pyLower t) kb.schemaTables).isSome then none
      else some (schemaErrorFor kb.schemaTables t))

/-! ## Execution gate -/

/-- The destructive-keyword gate of `_try_execute_query`: plain substring
containment over the upper-cased, stripped query text. -/
def hasDestructiveKeyword (q : List Char) : Bool :=
  destructiveKeywords.any fun k => hasSub (pyStrip (pyUpper q)) k

/-- The SecurityError finding of the gate. -/
def securityFinding : Finding :=
  { message := "This tutoring system only supports SELECT queries for learning purposes.".data
    ftype := "SECURITY_ERROR".data
    severity := "HIGH".data }

/-- `_try_execute_query`: the gate, then the sandbox call (rows capped at
10 in the result dict, total row count preserved). -/
def tryExecuteQuery (oracle : List Char → ExecOutcome) (q : List Char) : ExecFeedback :=
  if hasDestructiveKeyword q then .errF securityFinding
  else
    match oracle q with
    | .ok cols results =>
      .okR { columns := cols, data := results.take 10, rowCount := results.length }
    | .err m =>
      .errF
        { message := "Execution error: ".data ++ m
          ftype := "EXECUTION_ERROR".data
          severity := "HIGH".data
          explanation := "The query failed to execute against the sample database.".data }

/-! ## Suggestion synthesis -/

/-- The query-shape part of the multi-table-without-JOIN suggestion branch
of `_generate_ontology_suggestions`: the code tests the lower-case literals
`'employees'` and `'departments'` against the upper-cased query text. -/
def joinSuggestionTrigger (qU : List Char) : Bool :=
  hasSub qU "employees".data && hasSub qU "departments".data && !hasSub qU "JOIN".data

/-- A suggestion built from a template with the branch's severity. -/
def mkSugg (info : SuggTemplate) (sev : List Char) : Suggestion :=
  { message := info.message, stype := info.stype, severity := sev,
    source := "ontology".data }

/-- The `if/elif` chain of `_generate_ontology_suggestions` for one
template (the key test of the join branch is commuted past the
query-shape conjuncts, a pure-Boolean reordering); `none` models the
`IndexError` of the GROUP-BY column extraction in the last branch. -/
def suggFor (q key : List Char) (info : SuggTemplate) : Option (List Suggestion) :=
  let qU := pyUpper q
  if !hasSub qU "ORDER BY".data && hasSub (pyLower key) "order_by".data &&
      !hasSub qU "GROUP BY".data then
    some [mkSugg info "LOW".data]
  else if hasSub q "*".data && hasSub (pyLower key) "select_star".data &&
      !hasSub qU "COUNT(*)".data then
    some [mkSugg info "LOW".data]
  else if joinSuggestionTrigger qU && hasSub (pyLower key) "join".data then
    some [mkSugg info "MEDIUM".data]
  else if hasSub qU "GROUP BY".data && hasSub (pyLower key) "group_by_aggregate".data then
    some (if selectAggCallUpper (pyUpper (extractSelectClause q)) then []
          else [mkSugg info "MEDIUM".data])
  else if hasSub qU "GROUP BY".data && hasSub (pyLower key) "group_by_select".data then
    match extractGroupByColumns q with
    | none => none
    | some gcols =>
      let scols := extractAllColumnsFromSelect (extractSelectClause q)
      some (if gcols.any (fun g => !((scols.map pyUpper).contains (pyUpper g))) then
              [mkSugg info "MEDIUM".data]
            else [])
  else some []

/-- The template loop of `_generate_ontology_suggestions` (the `errors`
parameter of the Python method is never read and is omitted). -/
def genSuggGo (q : List Char) : List (List Char × SuggTemplate) → Option (List Suggestion)
  | [] => some []
  | (k, i) :: rest =>
    match suggFor q k i with
    | none => none
    | some s => (genSuggGo q rest).map (s ++ ·)

/-- `_generate_ontology_suggestions`. -/
def genOntologySuggestions (kb : KnowledgeBase) (q : List Char) : Option (List Suggestion) :=
  genSuggGo q kb.feedbackMessages

/-! ## Learning path -/

/-- The `while` loop of `get_concept_prerequisites`, fuel-indexed.  The
loop follows the single `prerequisite` successor of each concept, so a run
that ever revisits a key repeats forever; hence a terminating run makes at
most `tbl.length + 1` iterations and `none` at every fuel means the Python
loop diverges. -/
def getConceptPrereqsF (tbl : List (List Char × ConceptInfo)) :
    Nat → List Char → Option (List (List Char))
  | 0, _ => none
  | fuel + 1, cur =>
    match List.lookup cur tbl with
    | none => some []
    | some info =>
      match info.prerequisite with
      | some p =>
        if !p.isEmpty && (List.lookup p tbl).isSome then
          (getConceptPrereqsF tbl fuel p).map (p :: ·)
        else some []
      | none => some []

/-- `get_concept_prerequisites`: `none` exactly when the Python call never
returns (see `getConceptPrereqsF`). -/
def getConceptPrerequisites (tbl : List (List Char × ConceptInfo)) (c : List Char) :
    Option (List (List Char)) :=
  getConceptPrereqsF tbl (tbl.length + 2) c

/-- The error-type-to-concept mapping of `suggest_learning_path`
(`concepts_needed`, as an insertion-ordered set). -/
def conceptsNeeded (types : List (List Char)) : List (List Char) :=
  types.foldl
    (fun acc t =>
      let tl := pyLower t
      if hasSub tl "aggregate".data then
        addUnique (addUnique acc "aggregate_functions_concept".data) "group_by_concept".data
      else if hasSub tl "group".data || hasSub tl "having".data then
        addUnique (addUnique acc "group_by_concept".data) "having_clause_concept".data
      else if hasSub tl "join".data then addUnique acc "join_concept".data
      else if hasSub tl "where".data then addUnique acc "where_clause_concept".data
      else acc)
    []

/-- The sort key `self.sql_concepts.get(c, {}).get('difficulty', 1)`. -/
def conceptDifficulty (tbl : List (List Char × ConceptInfo)) (c : List Char) : Int :=
  ((List.lookup c tbl).map (·.difficulty)).getD 1

/-- Insert into an ascending list, before strictly greater keys (stable). -/
def insSortedBy (key : List Char → Int) (x : List Char) :
    List (List Char) → List (List Char)
  | [] => [x]
  | y :: r => if key x ≤ key y then x :: y :: r else y :: insSortedBy key x r

/-- Stable insertion sort ascending by `key` (Python `sorted`). -/
def stableSortBy (key : List Char → Int) : List (List Char) → List (List Char)
  | [] => []
  | x :: r => insSortedBy key x (stableSortBy key r)

/-- `suggest_learning_path`: concepts for the error types, closed under
the prerequisite walk, sorted ascending by difficulty; `none` when some
walk diverges. -/
def suggestLearningPath (tbl : List (List Char × ConceptInfo))
    (types : List (List Char)) : Option (List (List Char)) :=
  let needed := conceptsNeeded types
  match needed.foldlM
      (fun acc c => (getConceptPrerequisites tbl c).map fun ps => ps.foldl addUnique acc)
      needed with
  | none => none
  | some allC => some (stableSortBy (conceptDifficulty tbl) allC)

/-! ## Report assembly and the entry point -/

/-- The severity test of the verdict derivation. -/
def isHighSeverity (e : Finding) : Bool := e.severity == "HIGH".data

/-- The correctness derivation at the end of `analyze_query`. -/
def assembleVerdict (es : List Finding) : List Char :=
  if es.isEmpty then "CORRECT".data
  else if es.any isHighSeverity then "INCORRECT".data
  else "PARTIAL".data

/-- The success suggestion prepended for a correct query. -/
def successSuggestion : Suggestion :=
  { message := "✓ Query is syntactically and semantically correct!".data
    stype := "SUCCESS".data
    severity := "LOW".data
    source := "ontology".data }

/-- The final report of `analyze_query` once every stage has run. -/
def assembleReport (errors : List Finding) (suggs : List Suggestion)
    (lp : List (List Char)) (execRes : Option ExecResult) : Report :=
  { errors := errors
    warnings := []
    suggestions := if errors.isEmpty then successSuggestion :: suggs else suggs
    learningPath := lp
    correctness := assembleVerdict errors
    executionResult := execRes }

/-- The error list contributed by `_try_execute_query`. -/
def execFindings : ExecFeedback → List Finding
  | .errF f => [f]
  | .okR _ => []

/-- The execution result contributed by `_try_execute_query`. -/
def execResultOf : ExecFeedback → Option ExecResult
  | .okR r => some r
  | .errF _ => none

/-- The `EMPTY_INPUT` finding of the short-circuit branch. -/
def emptyInputFinding : Finding :=
  { message := "Please enter a SQL query.".data
    ftype := "EMPTY_INPUT".data
    severity := "LOW".data }

/-- The `PARSE_ERROR` finding of the `except` branch around the parse. -/
def parseErrorFinding (e : List Char) : Finding :=
  { message := "Failed to parse query: ".data ++ e
    ftype := "PARSE_ERROR".data
    severity := "HIGH".data }

/-- The feedback dict as returned by the two early-return branches: one
finding, everything else at its initial value (`correctness` still
`'UNKNOWN'`). -/
def initReport (f : Finding) : Report :=
  { errors := [f]
    warnings := []
    suggestions := []
    learningPath := []
    correctness := "UNKNOWN".data
    executionResult := none }

/-- The tail of `analyze_query` from the collected error list on:
learning path, then verdict and assembly. -/
def reportFor (kb : KnowledgeBase) (errors : List Finding)
    (suggs : List Suggestion) (execRes : Option ExecResult) : Option Report :=
  (suggestLearningPath kb.sqlConcepts (errors.map (·.ftype))).map fun lp =>
    assembleReport errors suggs lp execRes

/-- `analyze_query`.  `parseExc` is the exception message of the defensive
parse branch, if the external parser raised; the oracle is the sandbox
executor.  `none` models an analysis call that never returns a report (an
uncaught extraction `IndexError` or a diverging prerequisite walk; the
execution stage itself cannot raise past its `except`).  Execution runs
before suggestion synthesis in the source; both orders collect the same
report since the execution stage is total. -/
def analyzeQuery (kb : KnowledgeBase) (oracle : List Char → ExecOutcome)
    (parseExc : Option (List Char)) (q : List Char) : Option Report :=
  if (pyStrip q).isEmpty then some (initReport emptyInputFinding)
  else
    match parseExc with
    | some e => some (initReport (parseErrorFinding e))
    | none =>
      match checkSemantics kb q with
      | none => none
      | some es2 =>
        match checkSchemaConstraints kb q with
        | none => none
        | some es3 =>
          match genOntologySuggestions kb q with
          | none => none
          | some suggs =>
            reportFor kb
              (checkSyntax kb q ++ es2 ++ es3 ++ execFindings (tryExecuteQuery oracle q))
              suggs
              (execResultOf (tryExecuteQuery oracle q))

/-! ## Concrete instances used by witnesses and counterexamples -/

/-- The sample schema of the repository's ontology/database (tables and
column keys of `_init_sample_database`). -/
def kbSample : KnowledgeBase :=
  { schemaTables :=
      [("employees".data,
        ["emp_id".data, "first_name".data, "last_name".data, "department".data,
         "salary".data, "hire_date".data, "manager_id".data]),
       ("departments".data,
        ["dept_id".data, "dept_name".data, "location".data, "budget".data]),
       ("projects".data,
        ["project_id".data, "project_name".data, "department".data,
         "start_date".data, "end_date".data, "budget".data])]
    errorPatterns := []
    feedbackMessages := []
    sqlConcepts := [] }

/-- An executor oracle whose queries all succeed with an empty result set. -/
def okOracle : List Char → ExecOutcome := fun _ => .ok [] []

/-- `kbSample` extended with an ORDER-BY suggestion template. -/
def kbOrderBy : KnowledgeBase :=
  { kbSample with
    feedbackMessages :=
      [("order_by".data,
        { message := "Consider adding ORDER BY to sort your results.".data
          stype := "SUGGESTION".data })] }

/-- `kbSample` extended with a multi-table-JOIN suggestion template. -/
def kbJoin : KnowledgeBase :=
  { kbSample with
    feedbackMessages :=
      [("join_tables".data,
        { message := "Use JOIN to combine data from multiple tables.".data
          stype := "SUGGESTION".data })] }

/-- A concept table whose prerequisite links form a two-cycle. -/
def cyclicConcepts : List (List Char × ConceptInfo) :=
  [("a".data, { label := "A".data, difficulty := 1, prerequisite := some "b".data }),
   ("b".data, { label := "B".data, difficulty := 2, prerequisite := some "a".data })]

/-- The report of one fixed successful analysis, used as a witness input. -/
def witnessReport : Report :=
  (analyzeQuery kbSample okOracle none "SELECT * FROM employees".data).getD
    (initReport emptyInputFinding)

/-! ## General lemmas -/

/-- A non-empty pattern found as a substring puts its head character in the
searched list. -/
theorem hasSub_head_mem (l : List Char) (c : Char) (p : List Char)
    (h : hasSub l (c :: p) = true) : c ∈ l := by
  induction l with
  | nil => simp [hasSub] at h
  | cons x r ih =>
    rw [hasSub, Bool.or_eq_true] at h
    rcases h with h1 | h2
    · rw [List.isPrefixOf, Bool.and_eq_true] at h1
      exact (beq_iff_eq.mp h1.1) ▸ List.mem_cons_self x r
    · exact List.mem_cons_of_mem x (ih h2)

/-- No character upper-cases to a lower-case `e`. -/
theorem upChar_ne_e (c : Char) : upChar c ≠ 'e' := by
  unfold upChar
  cases hf : casePairs.find? fun p => p.1 == c with
  | none =>
    intro hc
    have : c = 'e' := hc
    subst this
    exact absurd hf (by decide)
  | some p =>
    have hp : p ∈ casePairs := List.mem_of_find?_eq_some hf
    simp only [Option.map_some', Option.getD_some]
    fin_cases hp <;> decide

/-- The upper-cased query text never contains the lower-case literal
`employees`. -/
theorem hasSub_upper_employees (q : List Char) :
    hasSub (pyUpper q) "employees".data = false := by
  cases h : hasSub (pyUpper q) "employees".data
  · rfl
  · exfalso
    have hm : 'e' ∈ pyUpper q := hasSub_head_mem (pyUpper q) 'e' "mployees".data h
    obtain ⟨c, -, hc⟩ := List.mem_map.mp hm
    exact upChar_ne_e c hc

/-- The verdict derivation, characterized against its own error list. -/
theorem assembleVerdict_spec (es : List Finding) :
    (assembleVerdict es = "CORRECT".data ↔ es = []) ∧
    (assembleVerdict es = "INCORRECT".data ↔ es.any isHighSeverity = true) ∧
    (assembleVerdict es = "PARTIAL".data ↔ es ≠ [] ∧ es.any isHighSeverity = false) := by
  cases es with
  | nil => decide
  | cons a l =>
    have hne : (a :: l : List Finding) ≠ [] := List.cons_ne_nil a l
    cases h2 : (a :: l).any isHighSeverity with
    | true =>
      have hv : assembleVerdict (a :: l) = "INCORRECT".data := by
        show (if (a :: l).any isHighSeverity = true then "INCORRECT".data
              else "PARTIAL".data) = "INCORRECT".data
        rw [h2]
        exact rfl
      refine ⟨?_, ?_, ?_⟩ <;> rw [hv]
      · exact ⟨fun h => absurd h (by decide), fun h => absurd h hne⟩
      · exact ⟨fun _ => rfl, fun _ => rfl⟩
      · exact ⟨fun h => absurd h (by decide), fun hp => absurd hp.2 (by decide)⟩
    | false =>
      have hv : assembleVerdict (a :: l) = "PARTIAL".data := by
        show (if (a :: l).any isHighSeverity = true then "INCORRECT".data
              else "PARTIAL".data) = "PARTIAL".data
        rw [h2]
        exact rfl
      refine ⟨?_, ?_, ?_⟩ <;> rw [hv]
      · exact ⟨fun h => absurd h (by decide), fun h => absurd h hne⟩
      · exact ⟨fun h => absurd h (by decide), fun h => absurd h (by decide)⟩
      · exact ⟨fun _ => ⟨hne, rfl⟩, fun _ => rfl⟩

/-! ## Claim theorems -/

/-- C1 (counterexample): the `missing_group_by` check fires on
`SELECT account FROM t`, a query whose SELECT clause contains no aggregate
call - `COUNT` is merely a substring of the identifier `account` - so the
check does not fire exactly on SELECT clauses with an aggregate call. -/
theorem missing_group_by_fires_without_aggregate_call :
    needsGroupBy "SELECT account FROM t".data = true ∧
    specAggregateCallInSelect "SELECT account FROM t".data = false := by
  exact ⟨by decide, by decide⟩

/-- C1 (amended): `missing_group_by` fires exactly when the query has no
`GROUP BY`, the SELECT clause contains some aggregate-function name as a
plain substring, and the lexical column extraction leaves a column outside
every aggregate-call pattern; in particular the pure-aggregate
`SELECT COUNT(*) FROM employees` does not fire and the mixed
`SELECT department, COUNT(*) FROM employees` does. -/
theorem missing_group_by_trigger_characterization :
    (∀ q : List Char,
      needsGroupBy q =
        (!hasSub (pyUpper q) "GROUP BY".data &&
          aggFuncs.any (fun f => hasSub (extractSelectClause q) f) &&
          !(nonAggregateSelectColumns q).isEmpty)) ∧
    needsGroupBy "SELECT COUNT(*) FROM employees".data = false ∧
    needsGroupBy "SELECT department, COUNT(*) FROM employees".data = true := by
  refine ⟨?_, by decide, by decide⟩
  intro q
  unfold needsGroupBy
  cases h1 : hasSub (pyUpper q) "GROUP BY".data with
  | true => rfl
  | false =>
    cases h2 : extractSelectClause q with
    | nil =>
      have ha : aggFuncs.any (fun f => hasSub ([] : List Char) f) = false := by decide
      rw [ha]
      rfl
    | cons ch rest =>
      cases h3 : aggFuncs.any (fun f => hasSub (ch :: rest) f) with
      | true => rfl
      | false => rfl

/-- C2: the clause-order check can never produce a finding: the observed
clause list of `_check_clause_order` is built by iterating the canonical
keyword list, so it always equals the canonical sublist it is compared to;
in particular the out-of-order `FROM employees SELECT *` yields no
finding. -/
theorem clause_order_check_never_fires :
    (∀ q : List Char, checkClauseOrder q = none) ∧
    checkClauseOrder "FROM employees SELECT *".data = none := by
  have key : ∀ q : List Char, expectedClauseOrder q = clausesPresent q := by
    intro q
    unfold expectedClauseOrder
    apply List.filter_congr
    intro a ha
    show List.elem a (clausesPresent q) = hasSub (pyUpper q) a
    rw [List.elem_eq_mem]
    cases hp : hasSub (pyUpper q) a with
    | false => simp [clausesPresent, List.mem_filter, hp]
    | true => simp [clausesPresent, List.mem_filter, hp, ha]
  have hall : ∀ q : List Char, checkClauseOrder q = none := by
    intro q
    unfold checkClauseOrder
    rw [key q, if_pos rfl]
  exact ⟨hall, hall _⟩

/-- C3: the destructive-keyword gate as claimed works on
`DELETE FROM employees` - a SecurityError/High finding, no execution
result, verdict INCORRECT, independently of the executor - but on
`DROP TABLE x FROM` the analysis crashes before the gate (uncaught
`IndexError` on the empty FROM clause) and returns no report at all. -/
theorem destructive_gate_report_and_crash :
    (∀ oracle : List Char → ExecOutcome,
      analyzeQuery kbSample oracle none "DROP TABLE x FROM".data = none) ∧
    (∀ oracle : List Char → ExecOutcome,
      (analyzeQuery kbSample oracle none "DELETE FROM employees".data).map
        (fun r => r.errors.contains securityFinding && r.executionResult.isNone &&
          (r.correctness == "INCORRECT".data)) = some true) :=
  ⟨fun _ => rfl, fun _ => rfl⟩

/-- C4: for every analyzed query that is not whitespace-only and parses,
the verdict is CORRECT exactly when the error list is empty, INCORRECT
exactly when some finding has severity HIGH, and PARTIAL in the remaining
cases. -/
theorem verdict_trichotomy :
    ∀ (kb : KnowledgeBase) (oracle : List Char → ExecOutcome) (q : List Char) (r : Report),
      (pyStrip q).isEmpty = false →
      analyzeQuery kb oracle none q = some r →
      ((r.correctness = "CORRECT".data ↔ r.errors = []) ∧
       (r.correctness = "INCORRECT".data ↔ r.errors.any isHighSeverity = true) ∧
       (r.correctness = "PARTIAL".data ↔ r.errors ≠ [] ∧ r.errors.any isHighSeverity = false)) := by
  intro kb oracle q r hne hr
  unfold analyzeQuery at hr
  rw [hne] at hr
  simp only [Bool.false_eq_true, if_false] at hr
  cases h2 : checkSemantics kb q with
  | none => rw [h2] at hr; exact absurd hr (by simp)
  | some es2 =>
    rw [h2] at hr
    cases h3 : checkSchemaConstraints kb q with
    | none => rw [h3] at hr; exact absurd hr (by simp)
    | some es3 =>
      rw [h3] at hr
      cases h4 : genOntologySuggestions kb q with
      | none => rw [h4] at hr; exact absurd hr (by simp)
      | some suggs =>
        rw [h4] at hr
        unfold reportFor at hr
        rw [Option.map_eq_some'] at hr
        obtain ⟨lp, -, hR⟩ := hr
        subst hR
        exact assembleVerdict_spec _

/-- C4 (witness): the trichotomy instantiated at the concrete analysis of
`SELECT * FROM employees` against the sample schema. -/
theorem verdict_trichotomy_witness :
    (pyStrip "SELECT * FROM employees".data).isEmpty = false ∧
    ((witnessReport.correctness = "CORRECT".data ↔ witnessReport.errors = []) ∧
     (witnessReport.correctness = "INCORRECT".data ↔
       witnessReport.errors.any isHighSeverity = true) ∧
     (witnessReport.correctness = "PARTIAL".data ↔
       witnessReport.errors ≠ [] ∧ witnessReport.errors.any isHighSeverity = false)) :=
  ⟨by decide,
   verdict_trichotomy kbSample okOracle "SELECT * FROM employees".data witnessReport
     (by decide) (by decide)⟩

/-- C5: `missing_aggregate_with_group_by` inspects only the SELECT clause:
whenever `GROUP BY` is present and the SELECT clause shows no aggregate
call, the check fires - whatever the HAVING clause contains. -/
theorem missing_aggregate_check_inspects_select_only :
    ∀ q : List Char,
      hasSub (pyUpper q) "GROUP BY".data = true →
      selectAggCallUpper (pyUpper (extractSelectClause q)) = false →
      checkMissingAggregateWithGroupBy q = true := by
  intro q h1 h2
  unfold checkMissingAggregateWithGroupBy
  rw [h1, if_pos rfl, h2]
  rfl

/-- C5 (witness): the check fires on
`SELECT department FROM employees GROUP BY department HAVING COUNT(*) > 1`,
whose only aggregate call sits in the HAVING clause. -/
theorem missing_aggregate_check_inspects_select_only_witness :
    hasSub
      (pyUpper "SELECT department FROM employees GROUP BY department HAVING COUNT(*) > 1".data)
      "GROUP BY".data = true ∧
    selectAggCallUpper
      (pyUpper (extractSelectClause
        "SELECT department FROM employees GROUP BY department HAVING COUNT(*) > 1".data)) = false ∧
    checkMissingAggregateWithGroupBy
      "SELECT department FROM employees GROUP BY department HAVING COUNT(*) > 1".data = true :=
  ⟨by decide, by decide,
   missing_aggregate_check_inspects_select_only
     "SELECT department FROM employees GROUP BY department HAVING COUNT(*) > 1".data
     (by decide) (by decide)⟩

/-- C6: on a concept table whose prerequisite links form a cycle the
prerequisite walk of `get_concept_prerequisites` never terminates: for
every fuel bound the fuel-indexed loop is still running. -/
theorem prerequisite_walk_diverges_on_cycle :
    ∀ fuel : Nat,
      getConceptPrereqsF cyclicConcepts fuel "a".data = none ∧
      getConceptPrereqsF cyclicConcepts fuel "b".data = none := by
  intro fuel
  induction fuel with
  | zero => exact ⟨rfl, rfl⟩
  | succ f ih =>
    constructor
    · have h : getConceptPrereqsF cyclicConcepts (f + 1) "a".data =
          (getConceptPrereqsF cyclicConcepts f "b".data).map ("b".data :: ·) := rfl
      rw [h, ih.2]
      rfl
    · have h : getConceptPrereqsF cyclicConcepts (f + 1) "b".data =
          (getConceptPrereqsF cyclicConcepts f "a".data).map ("a".data :: ·) := rfl
      rw [h, ih.1]
      rfl

/-- C7 (counterexample): with an ORDER-BY template in the knowledge base,
the same query receives suggestions when it parses but an empty suggestion
list when the parse step fails - suggestion synthesis is not run on the
parse-failure path. -/
theorem parse_failure_drops_suggestions :
    (analyzeQuery kbOrderBy okOracle (some "boom".data) "SELECT * FROM employees".data).map
      (fun r => r.suggestions) = some [] ∧
    (analyzeQuery kbOrderBy okOracle none "SELECT * FROM employees".data).map
      (fun r => r.suggestions.isEmpty) = some false := by
  exact ⟨by decide, by decide⟩

/-- C7 (amended): when the parse step fails, the report holds exactly one
ParseError/High finding and the analysis returns immediately - suggestions
and learning path stay empty and the verdict stays UNKNOWN. -/
theorem parse_failure_report :
    ∀ (kb : KnowledgeBase) (oracle : List Char → ExecOutcome) (e q : List Char),
      (pyStrip q).isEmpty = false →
      analyzeQuery kb oracle (some e) q = some (initReport (parseErrorFinding e)) := by
  intro kb oracle e q h
  unfold analyzeQuery
  rw [h]
  rfl

/-- C7 (witness): the parse-failure report at a concrete query. -/
theorem parse_failure_report_witness :
    (pyStrip "SELECT 1".data).isEmpty = false ∧
    analyzeQuery kbSample okOracle (some "boom".data) "SELECT 1".data =
      some (initReport (parseErrorFinding "boom".data)) :=
  ⟨by decide, parse_failure_report kbSample okOracle "boom".data "SELECT 1".data (by decide)⟩

/-- C8 (counterexample): the empty input's verdict is the sentinel UNKNOWN,
which is none of the three documented values. -/
theorem empty_input_verdict_unknown :
    (analyzeQuery kbSample okOracle none "".data).map (fun r => r.correctness) =
      some "UNKNOWN".data ∧
    ¬("UNKNOWN".data = "CORRECT".data ∨ "UNKNOWN".data = "INCORRECT".data ∨
      "UNKNOWN".data = "PARTIAL".data) := by
  exact ⟨by decide, by decide⟩

/-- C8 (amended): every whitespace-only input short-circuits to a report
with exactly one EMPTY_INPUT/Low finding, empty suggestions and learning
path, no execution result, and the sentinel verdict UNKNOWN. -/
theorem empty_input_report :
    ∀ (kb : KnowledgeBase) (oracle : List Char → ExecOutcome)
      (parseExc : Option (List Char)) (q : List Char),
      (pyStrip q).isEmpty = true →
      analyzeQuery kb oracle parseExc q = some (initReport emptyInputFinding) := by
  intro kb oracle parseExc q h
  unfold analyzeQuery
  rw [h, if_pos rfl]

/-- C8 (witness): the empty-input report at a whitespace-only input. -/
theorem empty_input_report_witness :
    (pyStrip "   ".data).isEmpty = true ∧
    analyzeQuery kbSample okOracle none "   ".data = some (initReport emptyInputFinding) :=
  ⟨by decide, empty_input_report kbSample okOracle none "   ".data (by decide)⟩

/-- C9: the multi-table-without-JOIN suggestion can never be emitted: its
trigger tests the lower-case literals `employees`/`departments` against
the upper-cased query text, which never contains a lower-case `e`; with a
join template supplied, `SELECT * FROM employees, departments` - two
tables, no JOIN - yields no suggestion at all. -/
theorem join_suggestion_never_emitted :
    (∀ q : List Char, joinSuggestionTrigger (pyUpper q) = false) ∧
    genOntologySuggestions kbJoin "SELECT * FROM employees, departments".data = some [] := by
  constructor
  · intro q
    unfold joinSuggestionTrigger
    rw [hasSub_upper_employees q]
    rfl
  · decide

/-- C10: the destructive gate is plain substring containment, so the pure
SELECT query `SELECT last_update FROM employees` - whose identifier
`last_update` contains `UPDATE` - trips the gate: SecurityError finding,
no execution result, for every executor oracle. -/
theorem substring_gate_flags_identifier :
    "SELECT".data.isPrefixOf
      (pyStrip (pyUpper "SELECT last_update FROM employees".data)) = true ∧
    hasDestructiveKeyword "SELECT last_update FROM employees".data = true ∧
    (∀ oracle : List Char → ExecOutcome,
      (analyzeQuery kbSample oracle none "SELECT last_update FROM employees".data).map
        (fun r => r.errors.contains securityFinding && r.executionResult.isNone) =
        some true) :=
  ⟨by decide, by decide, fun _ => rfl⟩

end SQLTutor

